import Mathlib

/-!
Verification of the escrow-bot Payment & Balance Consistency Engine.

The SQLite tables of `db.py` are embedded as association lists inside a
`DB` record, and each Python function that the properties refer to is
translated into a pure Lean function threading the `DB` state explicitly.
Monetary amounts are rationals, timestamps are natural-number seconds, and
the current wall-clock time is passed explicitly as a `now` argument
wherever the source calls `datetime.now()`.  Columns that no property
mentions (usernames, descriptions of users, ...) are omitted from the
records; every column that any property touches is kept.
-/

namespace EscrowBot

/-- Association-list lookup, the embedding of a `SELECT ... WHERE key = ?`
returning at most one row. -/
def lookupA {κ α : Type} [DecidableEq κ] : List (κ × α) → κ → Option α
  | [], _ => none
  | (k, v) :: t, key => if key = k then some v else lookupA t key

/-- Association-list in-place update, the embedding of an
`UPDATE ... WHERE key = ?` on a unique key. -/
def setA {κ α : Type} [DecidableEq κ] : List (κ × α) → κ → α → List (κ × α)
  | [], _, _ => []
  | (k, v) :: t, key, nv => if key = k then (k, nv) :: t else (k, v) :: setA t key nv

/-- A row of the `users` table (`db.py`): balance and updated timestamp. -/
structure User where
  balance : ℚ
  updated_at : Nat
  deriving DecidableEq

/-- A row of the `payments` table (`db.py`). -/
structure Payment where
  user_id : Nat
  amount : ℚ
  currency : String
  status : String
  invoice_url : String
  created_at : Nat
  updated_at : Nat
  deriving DecidableEq

/-- A row of the `withdrawal_history` table (`db.py`). -/
structure Withdrawal where
  user_id : Nat
  amount : ℚ
  status : String
  admin_notes : Option String
  timestamp : Nat
  deriving DecidableEq

/-- A row of the `deals` table (`db.py`). -/
structure Deal where
  buyer_id : Nat
  seller_username : String
  description : String
  amount : ℚ
  status : String
  admin_notes : Option String
  created_at : Nat
  updated_at : Nat
  completed_at : Option Nat
  deriving DecidableEq

/-- The whole SQLite database.  `lastDealId` mirrors SQLite's
`AUTOINCREMENT` counter for the `deals` table: the next inserted deal
receives id `lastDealId + 1`, so ids are always nonzero. -/
structure DB where
  users : List (Nat × User)
  withdrawals : List (Nat × Withdrawal)
  deals : List (Nat × Deal)
  payments : List (String × Payment)
  lastDealId : Nat
  deriving DecidableEq

/-- Embeds `update_balance(user_id, amount)` of `db.py` (lines 180-234).
If the user row is absent the code runs
`INSERT INTO users (user_id, balance) VALUES (?, ?)` with the raw delta —
with no sign check — and returns `True`.  If the row exists, the new
balance is computed; a negative result rolls back and returns `False`,
otherwise the row is updated together with its timestamp. -/
def update_balance (db : DB) (uid : Nat) (amount : ℚ) (now : Nat) : Bool × DB :=
  match lookupA db.users uid with
  | none =>
      (true, { db with users := (uid, { balance := amount, updated_at := now }) :: db.users })
  | some u =>
      let nb := u.balance + amount
      if nb < 0 then (false, db)
      else (true, { db with users := setA db.users uid { balance := nb, updated_at := now } })

/-- Embeds `get_user(user_id)` of `db.py` (lines 122-144): fetch the row,
creating it with the default balance `0` when absent. -/
def get_user (db : DB) (uid : Nat) : User × DB :=
  match lookupA db.users uid with
  | some u => (u, db)
  | none =>
      let u : User := { balance := 0, updated_at := 0 }
      (u, { db with users := (uid, u) :: db.users })

/-- The `valid_statuses` list of `update_payment_status` (`db.py` line 433). -/
def validStatuses : List String :=
  ["pending", "confirming", "confirmed", "failed", "cancelled", "expired"]

/-- Embeds `update_payment_status(payment_id, status)` of `db.py`
(lines 413-491): reject falsy arguments and statuses outside
`valid_statuses`; fail when the payment is missing; succeed without
mutation when the stored status already equals the candidate; otherwise
overwrite status and timestamp.  The source performs no terminal-state
check. -/
def update_payment_status (db : DB) (pid : String) (status : String) (now : Nat) :
    Bool × DB :=
  if pid = "" then (false, db)
  else if status = "" then (false, db)
  else if status ∈ validStatuses then
    match lookupA db.payments pid with
    | none => (false, db)
    | some p =>
        if p.status = status then (true, db)
        else (true, { db with
          payments := setA db.payments pid { p with status := status, updated_at := now } })
  else (false, db)

/-- Embeds `add_payment(user_id, payment_id, amount, currency, invoice_url)`
of `db.py` (lines 341-411): validate the arguments (Python truthiness turns
`0` and `""` into failures), treat an existing `payment_id` as success
without overwrite, otherwise insert a new row with status `'pending'`. -/
def add_payment (db : DB) (uid : Nat) (pid : String) (amount : ℚ)
    (currency invoiceUrl : String) (now : Nat) : Bool × DB :=
  if pid = "" then (false, db)
  else if uid = 0 then (false, db)
  else if amount ≤ 0 then (false, db)
  else if currency = "" then (false, db)
  else
    match lookupA db.payments pid with
    | some _ => (true, db)
    | none =>
        (true, { db with payments :=
          (pid, { user_id := uid, amount := amount, currency := currency,
                  status := "pending", invoice_url := invoiceUrl,
                  created_at := now, updated_at := now }) :: db.payments })

/-- Embeds `get_pending_payments()` of `db.py` (lines 493-507):
`SELECT * FROM payments WHERE status = 'pending'`. -/
def get_pending_payments (db : DB) : List (String × Payment) :=
  db.payments.filter (fun e => e.2.status == "pending")

/-- Embeds `process_webhook(payload, signature)` of `payment.py`
(lines 196-286) after JSON decoding.  `sigOk` stands for the result of
`verify_webhook_signature` (an HMAC-SHA512 comparison, not modelled
bitwise); `pid`/`pstatus` are the fields the NowPayments adapter extracts
from the payload, with `""` standing for an absent (falsy) field, which
`validate_webhook_payload` rejects.  The flow is: reject bad signatures
and incomplete payloads; fail on an unknown payment; succeed with no
action when the stored status already equals the candidate; otherwise run
`update_payment_status` and, when the candidate is `"confirmed"` and the
previously fetched row has truthy `user_id` and `amount`, credit the user
through `update_balance`. -/
def process_webhook (db : DB) (sigOk : Bool) (pid pstatus : String) (now : Nat) :
    Bool × DB :=
  if ¬ sigOk then (false, db)
  else if pid = "" then (false, db)
  else if pstatus = "" then (false, db)
  else
    match lookupA db.payments pid with
    | none => (false, db)
    | some p =>
        if p.status = pstatus then (true, db)
        else
          let r := update_payment_status db pid pstatus now
          if r.1 = false then (false, r.2)
          else if pstatus = "confirmed" then
            if p.user_id ≠ 0 ∧ p.amount ≠ 0 then
              let r2 := update_balance r.2 p.user_id p.amount now
              if r2.1 then (true, r2.2) else (false, r2.2)
            else (false, r.2)
          else (true, r.2)

/-- Embeds `PaymentMonitor._process_confirmed_payment(payment)` of
`payment_monitor.py` (lines 116-148): when the fetched row has truthy
`user_id` and `amount`, credit the user; the Boolean result of
`update_balance` is only logged. -/
def process_confirmed_payment (db : DB) (p : Payment) (now : Nat) : DB :=
  if p.user_id ≠ 0 ∧ p.amount ≠ 0 then (update_balance db p.user_id p.amount now).2
  else db

/-- Embeds `PaymentMonitor._check_single_payment(payment)` of
`payment_monitor.py` (lines 74-114).  `pid`/`p` are the row fetched by the
cycle; `remote` is the outcome of the `verify_payment` HTTP call followed
by the adapter's status extraction: `none` when the call raised or the
response was empty or carried no status, `some st` for an extracted
status (the code treats an empty extracted status as absent, hence the
`st ≠ ""` guard).  A payment older than 24 hours (86400 s, strictly) is
expired up front, before any remote call is consulted. -/
def check_single_payment (db : DB) (pid : String) (p : Payment) (now : Nat)
    (remote : Option String) : DB :=
  if pid = "" then db
  else if p.created_at + 86400 < now then (update_payment_status db pid "expired" now).2
  else
    match remote with
    | none => db
    | some st =>
        if st ≠ "" ∧ st ≠ p.status then
          let r := update_payment_status db pid st now
          if st = "confirmed" then process_confirmed_payment r.2 p now else r.2
        else db

/-- Embeds `PaymentMonitor._check_pending_payments()` of
`payment_monitor.py` (lines 51-72): fetch `get_pending_payments()` once,
then run `_check_single_payment` on each fetched row in order, threading
the database; `remote` gives each payment's processor answer. -/
def check_pending_payments (db : DB) (now : Nat) (remote : String → Option String) : DB :=
  (get_pending_payments db).foldl
    (fun acc e => check_single_payment acc e.1 e.2 now (remote e.1)) db

/-- Embeds `create_deal(buyer_id, seller_username, description, amount)` of
`db.py` (lines 270-291): insert a row with the default status `'waiting'`
and return the `AUTOINCREMENT` id (always ≥ 1). -/
def create_deal (db : DB) (buyer : Nat) (seller descr : String) (amount : ℚ)
    (now : Nat) : Option Nat × DB :=
  let dealId := db.lastDealId + 1
  (some dealId, { db with
    deals := (dealId, { buyer_id := buyer, seller_username := seller,
                        description := descr, amount := amount, status := "waiting",
                        admin_notes := none, created_at := now, updated_at := now,
                        completed_at := none }) :: db.deals,
    lastDealId := dealId })

/-- Embeds `handle_deal_amount(message)` of `bot.py` (lines 421-474) after
message parsing: `amount` is the parsed number, `maxAmt` the configured
`MAX_DEAL_AMOUNT`.  The handler fetches the user (creating it when
absent), validates via `validate_amount(text, 1, max)` (reject below the
minimum `1`, and above the maximum when the maximum is truthy), rejects
amounts above the balance, then inserts the deal and — only afterwards,
ignoring the Boolean result — debits the buyer. -/
def handle_deal_amount (db : DB) (uid : Nat) (seller descr : String)
    (amount maxAmt : ℚ) (now : Nat) : Option Nat × DB :=
  let g := get_user db uid
  if amount < 1 then (none, g.2)
  else if maxAmt ≠ 0 ∧ maxAmt < amount then (none, g.2)
  else if g.1.balance < amount then (none, g.2)
  else
    let r := create_deal g.2 uid seller descr amount now
    match r.1 with
    | some dealId =>
        if dealId ≠ 0 then (some dealId, (update_balance r.2 uid (-amount) now).2)
        else (none, r.2)
    | none => (none, r.2)

/-- Embeds `update_deal_status(deal_id, status, admin_notes)` of `db.py`
(lines 313-339): an unconditional `UPDATE` of status and timestamp
(and notes when given) that reports `True` whether or not a row matched. -/
def update_deal_status (db : DB) (dealId : Nat) (status : String)
    (notes : Option String) (now : Nat) : Bool × DB :=
  match lookupA db.deals dealId with
  | none => (true, db)
  | some d =>
      let notes2 := match notes with | some n => some n | none => d.admin_notes
      let d2 := { d with status := status, updated_at := now, admin_notes := notes2 }
      (true, { db with deals := setA db.deals dealId d2 })

/-- Embeds `resolve_dispute(deal_id, resolution, admin_notes)` of
`admin.py` (lines 202-252): fail on a missing or non-`disputed` deal or an
unknown resolution; `refund_buyer` credits the buyer the deal amount and
sets `cancelled`; `pay_seller` debits the buyer the deal amount (the
source comment reads "Pay seller (deduct from buyer's balance)") and sets
`completed` with a completion timestamp.  The Boolean result of
`update_balance` is ignored, and `admin_notes`/`completed_at` are
overwritten unconditionally by the `UPDATE`. -/
def resolve_dispute (db : DB) (dealId : Nat) (resolution : String)
    (notes : Option String) (now : Nat) : Bool × DB :=
  match lookupA db.deals dealId with
  | none => (false, db)
  | some d =>
      if d.status ≠ "disputed" then (false, db)
      else if resolution = "refund_buyer" then
        let r := update_balance db d.buyer_id d.amount now
        let d2 := { d with status := "cancelled", admin_notes := notes,
                           updated_at := now, completed_at := (none : Option Nat) }
        (true, { r.2 with deals := setA r.2.deals dealId d2 })
      else if resolution = "pay_seller" then
        let r := update_balance db d.buyer_id (-d.amount) now
        let d2 := { d with status := "completed", admin_notes := notes,
                           updated_at := now, completed_at := some now }
        (true, { r.2 with deals := setA r.2.deals dealId d2 })
      else (false, db)

/-- Embeds `approve_withdrawal(withdrawal_id, admin_notes)` of `admin.py`
(lines 101-137): fail on a missing or non-`pending` request; otherwise
mark it `approved` with notes and a fresh timestamp.  No ledger call. -/
def approve_withdrawal (db : DB) (wid : Nat) (notes : Option String) (now : Nat) :
    Bool × DB :=
  match lookupA db.withdrawals wid with
  | none => (false, db)
  | some w =>
      if w.status ≠ "pending" then (false, db)
      else
        let w2 := { w with status := "approved", admin_notes := notes, timestamp := now }
        (true, { db with withdrawals := setA db.withdrawals wid w2 })

/-- Embeds `reject_withdrawal(withdrawal_id, admin_notes)` of `admin.py`
(lines 139-178): fail on a missing or non-`pending` request; otherwise
refund the amount through `update_balance` (result ignored) and mark the
request `rejected`. -/
def reject_withdrawal (db : DB) (wid : Nat) (notes : Option String) (now : Nat) :
    Bool × DB :=
  match lookupA db.withdrawals wid with
  | none => (false, db)
  | some w =>
      if w.status ≠ "pending" then (false, db)
      else
        let r := update_balance db w.user_id w.amount now
        let w2 := { w with status := "rejected", admin_notes := notes, timestamp := now }
        (true, { r.2 with withdrawals := setA r.2.withdrawals wid w2 })

/-- Embeds `cleanup_old_data()` of `admin.py` (lines 351-383): archive
completed deals whose completion is older than 30 days (2592000 s) and
`confirmed`/`failed` payments last updated more than 30 days ago, writing
the status string `'archived'` directly. -/
def cleanup_old_data (db : DB) (now : Nat) : Bool × DB :=
  let deals2 := db.deals.map (fun e =>
    if e.2.status == "completed"
        && e.2.completed_at.elim false (fun t => decide (t + 2592000 < now)) then
      (e.1, { e.2 with status := "archived" })
    else e)
  let pays2 := db.payments.map (fun e =>
    if (e.2.status == "confirmed" || e.2.status == "failed")
        && decide (e.2.updated_at + 2592000 < now) then
      (e.1, { e.2 with status := "archived" })
    else e)
  (true, { db with deals := deals2, payments := pays2 })

/-- Iterates `update_balance` over a list of deltas for one user,
collecting each call's reported result: the harness for the
"sequence of adjust calls" properties of the Balance Ledger. -/
def apply_deltas (db : DB) (uid : Nat) (now : Nat) : List ℚ → DB × List Bool
  | [] => (db, [])
  | d :: ds =>
      let r := update_balance db uid d now
      let rest := apply_deltas r.2 uid now ds
      (rest.1, r.1 :: rest.2)

/-- The sum of the deltas whose paired result Boolean is `true`. -/
def success_sum : List ℚ → List Bool → ℚ
  | [], _ => 0
  | _ :: _, [] => 0
  | d :: ds, b :: bs => (if b then d else 0) + success_sum ds bs

/-! ### Concrete fixture databases used by the witnesses and counterexamples -/

def uC1 : User := { balance := 0, updated_at := 0 }

def pC1 : Payment :=
  { user_id := 7, amount := 50, currency := "usdttrc20", status := "pending",
    invoice_url := "https://pay.example/1", created_at := 0, updated_at := 0 }

def dbC1 : DB :=
  { users := [(7, uC1)], withdrawals := [], deals := [],
    payments := [("pay1", pC1)], lastDealId := 0 }

def dbC2 : DB :=
  { users := [(3, { balance := 10, updated_at := 0 })], withdrawals := [], deals := [],
    payments := [], lastDealId := 0 }

def pC3 : Payment :=
  { user_id := 4, amount := 20, currency := "btc", status := "confirmed",
    invoice_url := "https://pay.example/3", created_at := 0, updated_at := 0 }

def dbC3 : DB :=
  { users := [], withdrawals := [], deals := [],
    payments := [("pay3", pC3)], lastDealId := 0 }

def dbC4 : DB :=
  { users := [(7, { balance := 100, updated_at := 0 })], withdrawals := [], deals := [],
    payments := [], lastDealId := 0 }

def uC5 : User := { balance := 30, updated_at := 0 }

def dbC5 : DB :=
  { users := [(9, uC5)], withdrawals := [], deals := [], payments := [], lastDealId := 0 }

def dbC6 : DB :=
  { users := [], withdrawals := [], deals := [], payments := [], lastDealId := 0 }

def wC7 : Withdrawal :=
  { user_id := 5, amount := 25, status := "pending", admin_notes := none, timestamp := 0 }

def uC7 : User := { balance := 40, updated_at := 0 }

def dbC7 : DB :=
  { users := [(5, uC7)], withdrawals := [(2, wC7)], deals := [], payments := [],
    lastDealId := 0 }

def pC8 : Payment :=
  { user_id := 6, amount := 15, currency := "btc", status := "pending",
    invoice_url := "https://pay.example/8", created_at := 1000, updated_at := 1000 }

def dbC8 : DB :=
  { users := [(6, { balance := 0, updated_at := 0 })], withdrawals := [], deals := [],
    payments := [("pay8", pC8)], lastDealId := 0 }

def pC9 : Payment :=
  { user_id := 2, amount := 5, currency := "btc", status := "confirming",
    invoice_url := "https://pay.example/9", created_at := 0, updated_at := 0 }

def dbC9 : DB :=
  { users := [], withdrawals := [], deals := [], payments := [("pay9", pC9)],
    lastDealId := 0 }

def pC9w : Payment :=
  { user_id := 2, amount := 5, currency := "btc", status := "pending",
    invoice_url := "https://pay.example/9w", created_at := 0, updated_at := 0 }

def dbC9w : DB :=
  { users := [], withdrawals := [], deals := [], payments := [("pay9w", pC9w)],
    lastDealId := 0 }

def pC10 : Payment :=
  { user_id := 5, amount := 9, currency := "btc", status := "confirmed",
    invoice_url := "https://pay.example/10", created_at := 0, updated_at := 0 }

def dbC10 : DB :=
  { users := [], withdrawals := [], deals := [], payments := [("pay10", pC10)],
    lastDealId := 0 }

def pC10w : Payment :=
  { user_id := 5, amount := 9, currency := "btc", status := "pending",
    invoice_url := "https://pay.example/10w", created_at := 0, updated_at := 0 }

def dbC10w : DB :=
  { users := [], withdrawals := [], deals := [], payments := [("pay10w", pC10w)],
    lastDealId := 0 }

/-! ### Basic lemmas about the association-list store -/

theorem lookupA_setA_self {κ α : Type} [DecidableEq κ] (l : List (κ × α)) (k : κ)
    (v w : α) (h : lookupA l k = some w) : lookupA (setA l k v) k = some v := by
  induction l with
  | nil => simp [lookupA] at h
  | cons a t ih =>
      obtain ⟨k0, v0⟩ := a
      by_cases hk : k = k0
      · subst hk
        simp [setA, lookupA]
      · simp only [setA, lookupA, if_neg hk] at h ⊢
        exact ih h

theorem lookupA_setA_ne {κ α : Type} [DecidableEq κ] (l : List (κ × α)) (k k' : κ)
    (v : α) (h : k' ≠ k) : lookupA (setA l k v) k' = lookupA l k' := by
  induction l with
  | nil => simp [setA, lookupA]
  | cons a t ih =>
      obtain ⟨k0, v0⟩ := a
      by_cases hk : k = k0
      · subst hk
        simp [setA, lookupA, if_neg h]
      · simp only [setA, if_neg hk, lookupA]
        by_cases hk' : k' = k0
        · simp [hk']
        · simp [hk', ih]

/-! ### Evaluation lemmas for single ledger calls -/

theorem update_balance_existing (db : DB) (uid : Nat) (amount : ℚ) (now : Nat)
    (u : User) (hu : lookupA db.users uid = some u) :
    update_balance db uid amount now =
      if u.balance + amount < 0 then (false, db)
      else (true, { db with
        users := setA db.users uid { balance := u.balance + amount, updated_at := now } }) := by
  unfold update_balance
  rw [hu]

theorem process_webhook_dup (db : DB) (pid pstatus : String) (now : Nat) (p : Payment)
    (hpid : pid ≠ "") (hps : pstatus ≠ "")
    (hp : lookupA db.payments pid = some p) (h : p.status = pstatus) :
    process_webhook db true pid pstatus now = (true, db) := by
  simp [process_webhook, hpid, hps, hp, h]

/-- C1: for a stored payment in status `pending` with amount `a` whose owner
has balance `0`, two successive `process_webhook` calls carrying the same
authenticated `confirmed` notification credit the owner exactly once: the
first call succeeds and leaves the balance at exactly `a`, and the second
call reports success while changing nothing at all. -/
theorem C1_duplicate_confirmed_webhook_credits_once
    (db : DB) (pid : String) (p : Payment) (uid : Nat) (u : User) (a : ℚ)
    (now now2 : Nat)
    (hpid : pid ≠ "")
    (hp : lookupA db.payments pid = some p)
    (hst : p.status = "pending")
    (huid : p.user_id = uid) (huid0 : uid ≠ 0)
    (hamt : p.amount = a) (hapos : 0 < a)
    (hu : lookupA db.users uid = some u) (hbal : u.balance = 0) :
    (process_webhook db true pid "confirmed" now).1 = true ∧
    (lookupA (process_webhook db true pid "confirmed" now).2.users uid).map User.balance
      = some a ∧
    process_webhook (process_webhook db true pid "confirmed" now).2 true pid "confirmed" now2
      = (true, (process_webhook db true pid "confirmed" now).2) := by
  subst huid
  subst hamt
  have hne : p.status ≠ "confirmed" := by rw [hst]; simp
  have hups : update_payment_status db pid "confirmed" now = (true, { db with payments := setA db.payments pid { p with status := "confirmed", updated_at := now } }) := by
    simp [update_payment_status, hpid, validStatuses, hp, hne]
  have hu1 : lookupA (DB.users { db with payments := setA db.payments pid { p with status := "confirmed", updated_at := now } }) p.user_id = some u := hu
  have hnn : ¬ (u.balance + p.amount < 0) := by
    rw [hbal, zero_add]
    exact not_lt.mpr (le_of_lt hapos)
  have hub : update_balance { db with payments := setA db.payments pid { p with status := "confirmed", updated_at := now } } p.user_id p.amount now = (true, { db with users := setA db.users p.user_id { balance := u.balance + p.amount, updated_at := now }, payments := setA db.payments pid { p with status := "confirmed", updated_at := now } }) := by
    rw [update_balance_existing _ p.user_id p.amount now u hu1, if_neg hnn]
  have ha0 : p.amount ≠ 0 := ne_of_gt hapos
  have h1 : process_webhook db true pid "confirmed" now = (true, { db with users := setA db.users p.user_id { balance := u.balance + p.amount, updated_at := now }, payments := setA db.payments pid { p with status := "confirmed", updated_at := now } }) := by
    simp [process_webhook, hpid, hp, hne, hups, hub, huid0, ha0]
  refine ⟨by simp [h1], ?_, ?_⟩
  · rw [h1]
    have h2 : lookupA (setA db.users p.user_id { balance := u.balance + p.amount, updated_at := now }) p.user_id = some { balance := u.balance + p.amount, updated_at := now } :=
      lookupA_setA_self db.users p.user_id _ u hu
    show (lookupA (setA db.users p.user_id { balance := u.balance + p.amount, updated_at := now }) p.user_id).map User.balance = some p.amount
    rw [h2]
    simp [hbal]
  · rw [h1]
    exact process_webhook_dup _ pid "confirmed" now2
      { p with status := "confirmed", updated_at := now } hpid (by simp)
      (lookupA_setA_self db.payments pid _ p hp) rfl

/-- Witness for C1: the concrete database `dbC1` satisfies every hypothesis,
and the duplicated `confirmed` webhook leaves user 7 at balance 50. -/
theorem C1_witness :
    (("pay1" : String) ≠ "" ∧ lookupA dbC1.payments "pay1" = some pC1 ∧
      pC1.status = "pending" ∧ pC1.user_id = 7 ∧ (7 : Nat) ≠ 0 ∧
      pC1.amount = 50 ∧ (0 : ℚ) < 50 ∧ lookupA dbC1.users 7 = some uC1 ∧
      uC1.balance = 0) ∧
    ((process_webhook dbC1 true "pay1" "confirmed" 11).1 = true ∧
      (lookupA (process_webhook dbC1 true "pay1" "confirmed" 11).2.users 7).map User.balance
        = some 50 ∧
      process_webhook (process_webhook dbC1 true "pay1" "confirmed" 11).2 true "pay1"
          "confirmed" 12
        = (true, (process_webhook dbC1 true "pay1" "confirmed" 11).2)) :=
  ⟨⟨by simp, by simp [dbC1, lookupA], rfl, rfl, by simp, rfl, by norm_num,
      by simp [dbC1, lookupA], rfl⟩,
    C1_duplicate_confirmed_webhook_credits_once dbC1 "pay1" pC1 7 uC1 50 11 12
      (by simp) (by simp [dbC1, lookupA]) rfl rfl (by simp) rfl (by norm_num)
      (by simp [dbC1, lookupA]) rfl⟩

theorem apply_deltas_spec (uid now : Nat) (ds : List ℚ) :
    ∀ (db : DB) (u : User), lookupA db.users uid = some u → 0 ≤ u.balance →
      ∃ u' : User, lookupA (apply_deltas db uid now ds).1.users uid = some u' ∧
        u'.balance = u.balance + success_sum ds (apply_deltas db uid now ds).2 ∧
        0 ≤ u'.balance := by
  induction ds with
  | nil =>
      intro db u hu hb
      exact ⟨u, hu, by simp [apply_deltas, success_sum], hb⟩
  | cons d ds ih =>
      intro db u hu hb
      by_cases hneg : u.balance + d < 0
      · have hub : update_balance db uid d now = (false, db) := by
          rw [update_balance_existing db uid d now u hu, if_pos hneg]
        obtain ⟨u', h1, h2, h3⟩ := ih db u hu hb
        refine ⟨u', ?_, ?_, h3⟩
        · simpa [apply_deltas, hub] using h1
        · simpa [apply_deltas, hub, success_sum] using h2
      · have hub : update_balance db uid d now = (true, { db with users := setA db.users uid { balance := u.balance + d, updated_at := now } }) := by
          rw [update_balance_existing db uid d now u hu, if_neg hneg]
        have hu2 : lookupA (DB.users { db with users := setA db.users uid { balance := u.balance + d, updated_at := now } }) uid = some { balance := u.balance + d, updated_at := now } :=
          lookupA_setA_self db.users uid _ u hu
        obtain ⟨u', h1, h2, h3⟩ := ih _ _ hu2 (not_lt.mp hneg)
        refine ⟨u', ?_, ?_, h3⟩
        · simpa [apply_deltas, hub] using h1
        · rw [h2]
          simp [apply_deltas, hub, success_sum]
          try ring

/-- C2: starting from an existing user with a non-negative balance, every
`update_balance` call on that user either succeeds and changes the stored
balance by exactly its delta, or reports failure and leaves the database
untouched; consequently, after any sequence of calls the final balance is
the initial balance plus the sum of the successful deltas, and the stored
balance is non-negative after every prefix of the sequence. -/
theorem C2_ledger_adjust_sequence (db : DB) (uid now : Nat) (ds : List ℚ)
    (u : User) (hu : lookupA db.users uid = some u) (hb : 0 ≤ u.balance) :
    (∀ (db' : DB) (u' : User) (d : ℚ), lookupA db'.users uid = some u' →
      ((update_balance db' uid d now).1 = true →
        lookupA (update_balance db' uid d now).2.users uid
          = some { balance := u'.balance + d, updated_at := now } ∧ 0 ≤ u'.balance + d) ∧
      ((update_balance db' uid d now).1 = false →
        (update_balance db' uid d now).2 = db')) ∧
    (∃ u' : User, lookupA (apply_deltas db uid now ds).1.users uid = some u' ∧
      u'.balance = u.balance + success_sum ds (apply_deltas db uid now ds).2) ∧
    (∀ n : Nat, ∃ u' : User,
      lookupA (apply_deltas db uid now (ds.take n)).1.users uid = some u' ∧
      0 ≤ u'.balance) := by
  refine ⟨?_, ?_, ?_⟩
  · intro db' u' d hu'
    constructor
    · intro hok
      by_cases hneg : u'.balance + d < 0
      · rw [update_balance_existing db' uid d now u' hu', if_pos hneg] at hok
        cases hok
      · rw [update_balance_existing db' uid d now u' hu', if_neg hneg]
        exact ⟨lookupA_setA_self db'.users uid _ u' hu', not_lt.mp hneg⟩
    · intro hfail
      by_cases hneg : u'.balance + d < 0
      · rw [update_balance_existing db' uid d now u' hu', if_pos hneg]
      · rw [update_balance_existing db' uid d now u' hu', if_neg hneg] at hfail
        cases hfail
  · obtain ⟨u', h1, h2, _⟩ := apply_deltas_spec uid now ds db u hu hb
    exact ⟨u', h1, h2⟩
  · intro n
    obtain ⟨u', h1, _, h3⟩ := apply_deltas_spec uid now (ds.take n) db u hu hb
    exact ⟨u', h1, h3⟩

/-- Witness for C2: user 3 with balance 10 and the delta sequence
`[5, -20, -12]` (the second call must fail, the others succeed). -/
theorem C2_witness :
    (lookupA dbC2.users 3 = some { balance := 10, updated_at := 0 } ∧
      (0 : ℚ) ≤ (10 : ℚ)) ∧
    ((∀ (db' : DB) (u' : User) (d : ℚ), lookupA db'.users 3 = some u' →
      ((update_balance db' 3 d 4).1 = true →
        lookupA (update_balance db' 3 d 4).2.users 3
          = some { balance := u'.balance + d, updated_at := 4 } ∧ 0 ≤ u'.balance + d) ∧
      ((update_balance db' 3 d 4).1 = false →
        (update_balance db' 3 d 4).2 = db')) ∧
    (∃ u' : User, lookupA (apply_deltas dbC2 3 4 [5, -20, -12]).1.users 3 = some u' ∧
      u'.balance = (10 : ℚ)
        + success_sum [5, -20, -12] (apply_deltas dbC2 3 4 [5, -20, -12]).2) ∧
    (∀ n : Nat, ∃ u' : User,
      lookupA (apply_deltas dbC2 3 4 ([5, -20, -12].take n)).1.users 3 = some u' ∧
      0 ≤ u'.balance)) :=
  ⟨⟨by simp [dbC2, lookupA], by norm_num⟩,
    C2_ledger_adjust_sequence dbC2 3 4 [5, -20, -12] { balance := 10, updated_at := 0 }
      (by simp [dbC2, lookupA]) (by norm_num)⟩

/-- C3 counterexample: payment `pay3` is stored in the terminal status
`confirmed`, yet `update_payment_status` to the different status `failed`
returns `true` and overwrites the stored status and timestamp — the
claimed terminal-state guard is absent from the code. -/
theorem C3_counterexample :
    (update_payment_status dbC3 "pay3" "failed" 9).1 = true ∧
    (lookupA (update_payment_status dbC3 "pay3" "failed" 9).2.payments "pay3").map
        Payment.status = some "failed" ∧
    (lookupA (update_payment_status dbC3 "pay3" "failed" 9).2.payments "pay3").map
        Payment.updated_at = some 9 := by
  refine ⟨?_, ?_, ?_⟩ <;>
    simp [update_payment_status, dbC3, pC3, lookupA, setA, validStatuses]

/-- C3 (amended): for an existing payment, a call with the identical status
is a no-op that returns success, and a call with any different valid
status — whether or not the stored status is terminal — overwrites the
stored status and updated timestamp and returns `true`; the code performs
no terminal-state check. -/
theorem C3_transition_no_terminal_guard
    (db : DB) (pid st : String) (now : Nat) (p : Payment)
    (hp : lookupA db.payments pid = some p) (hpid : pid ≠ "")
    (hst : st ∈ validStatuses) :
    (p.status = st → update_payment_status db pid st now = (true, db)) ∧
    (p.status ≠ st →
      update_payment_status db pid st now
        = (true, { db with payments := setA db.payments pid { p with status := st, updated_at := now } })) := by
  have hst0 : st ≠ "" := by
    intro h
    rw [h] at hst
    simp [validStatuses] at hst
  constructor
  · intro h
    simp [update_payment_status, hpid, hst0, hst, hp, h]
  · intro h
    simp [update_payment_status, hpid, hst0, hst, hp, h]

/-- Witness for the amended C3 at the concrete database `dbC3`. -/
theorem C3_witness :
    (lookupA dbC3.payments "pay3" = some pC3 ∧ ("pay3" : String) ≠ "" ∧
      "failed" ∈ validStatuses) ∧
    ((pC3.status = "failed" → update_payment_status dbC3 "pay3" "failed" 9 = (true, dbC3)) ∧
      (pC3.status ≠ "failed" →
        update_payment_status dbC3 "pay3" "failed" 9
          = (true, { dbC3 with payments := setA dbC3.payments "pay3" { pC3 with status := "failed", updated_at := 9 } }))) :=
  ⟨⟨by simp [dbC3, lookupA], by simp, by simp [validStatuses]⟩,
    C3_transition_no_terminal_guard dbC3 "pay3" "failed" 9 pC3
      (by simp [dbC3, lookupA]) (by simp) (by simp [validStatuses])⟩

/-- C4, evaluated at the failing input: buyer 7 starts with balance 100 and
creates a deal of amount 40, which escrows the funds (balance 60).  After
the deal is marked `disputed`, resolving it with `pay_seller` reports
success and marks the deal `completed` with a completion timestamp — but
the code debits the buyer a second time, leaving balance 20, where the
specified behaviour is no balance change (60). -/
theorem C4_pay_seller_debits_buyer_again :
    (handle_deal_amount dbC4 7 "@seller" "artwork" 40 10000 1).1 = some 1 ∧
    (lookupA (handle_deal_amount dbC4 7 "@seller" "artwork" 40 10000 1).2.users 7).map
        User.balance = some 60 ∧
    ((resolve_dispute (update_deal_status (handle_deal_amount dbC4 7 "@seller" "artwork" 40 10000 1).2 1 "disputed" none 2).2 1 "pay_seller" none 3).1 = true ∧
      (lookupA (resolve_dispute (update_deal_status (handle_deal_amount dbC4 7 "@seller" "artwork" 40 10000 1).2 1 "disputed" none 2).2 1 "pay_seller" none 3).2.deals 1).map Deal.status = some "completed" ∧
      (lookupA (resolve_dispute (update_deal_status (handle_deal_amount dbC4 7 "@seller" "artwork" 40 10000 1).2 1 "disputed" none 2).2 1 "pay_seller" none 3).2.deals 1).map Deal.completed_at = some (some 3) ∧
      (lookupA (resolve_dispute (update_deal_status (handle_deal_amount dbC4 7 "@seller" "artwork" 40 10000 1).2 1 "disputed" none 2).2 1 "pay_seller" none 3).2.users 7).map User.balance = some 20) := by
  refine ⟨?_, ?_, ?_, ?_, ?_, ?_⟩ <;>
    norm_num [handle_deal_amount, get_user, create_deal, update_balance,
      update_deal_status, resolve_dispute, lookupA, setA, dbC4] <;>
    simp

/-- C5: with an existing buyer, a deal-creation attempt persists a deal —
always in status `waiting` — exactly when the escrow debit goes through:
on success the debit call reports `true` and the buyer's balance drops by
exactly the deal amount, and on every failed attempt the database is left
completely unchanged (no deal record, balance untouched). -/
theorem C5_deal_persisted_iff_debit_succeeds
    (db : DB) (uid : Nat) (seller descr : String) (amount maxAmt : ℚ) (now : Nat)
    (u : User) (hu : lookupA db.users uid = some u) :
    (∀ dealId : Nat,
      (handle_deal_amount db uid seller descr amount maxAmt now).1 = some dealId →
      (lookupA (handle_deal_amount db uid seller descr amount maxAmt now).2.deals dealId).map
          Deal.status = some "waiting" ∧
      (update_balance (create_deal db uid seller descr amount now).2 uid (-amount) now).1
        = true ∧
      (lookupA (handle_deal_amount db uid seller descr amount maxAmt now).2.users uid).map
          User.balance = some (u.balance - amount)) ∧
    ((handle_deal_amount db uid seller descr amount maxAmt now).1 = none →
      (handle_deal_amount db uid seller descr amount maxAmt now).2 = db) := by
  have hg : get_user db uid = (u, db) := by
    unfold get_user
    rw [hu]
  by_cases h1 : amount < 1
  · constructor
    · intro dealId hsome
      simp [handle_deal_amount, hg, h1] at hsome
    · intro _
      simp [handle_deal_amount, hg, h1]
  by_cases h2 : maxAmt ≠ 0 ∧ maxAmt < amount
  · constructor
    · intro dealId hsome
      simp [handle_deal_amount, hg, h1, h2] at hsome
    · intro _
      simp [handle_deal_amount, hg, h1, h2]
  by_cases h3 : u.balance < amount
  · constructor
    · intro dealId hsome
      simp [handle_deal_amount, hg, h1, h2, h3] at hsome
    · intro _
      simp [handle_deal_amount, hg, h1, h2, h3]
  · have hnn : ¬ (u.balance + -amount < 0) := by
      rw [not_lt] at h3 ⊢
      linarith
    constructor
    · intro dealId hsome
      have hid : dealId = db.lastDealId + 1 := by
        simp [handle_deal_amount, hg, h1, h2, h3, create_deal] at hsome
        omega
      subst hid
      refine ⟨?_, ?_, ?_⟩
      · simp [handle_deal_amount, hg, h1, h2, h3, create_deal, update_balance, hu, hnn,
          lookupA]
      · simp [create_deal, update_balance, hu, hnn]
      · have hs : (handle_deal_amount db uid seller descr amount maxAmt now).2.users = setA db.users uid { balance := u.balance + -amount, updated_at := now } := by
          simp [handle_deal_amount, hg, h1, h2, h3, create_deal, update_balance, hu, hnn]
        rw [hs, lookupA_setA_self db.users uid _ u hu]
        simp [sub_eq_add_neg]
    · intro hnone
      simp [handle_deal_amount, hg, h1, h2, h3, create_deal, update_balance, hu, hnn]
        at hnone

/-- Witness for C5: buyer 9 with balance 30 attempts a deal of amount 20. -/
theorem C5_witness :
    lookupA dbC5.users 9 = some uC5 ∧
    ((∀ dealId : Nat,
      (handle_deal_amount dbC5 9 "@s" "web" 20 10000 1).1 = some dealId →
      (lookupA (handle_deal_amount dbC5 9 "@s" "web" 20 10000 1).2.deals dealId).map
          Deal.status = some "waiting" ∧
      (update_balance (create_deal dbC5 9 "@s" "web" 20 1).2 9 (-20) 1).1 = true ∧
      (lookupA (handle_deal_amount dbC5 9 "@s" "web" 20 10000 1).2.users 9).map
          User.balance = some (uC5.balance - 20)) ∧
    ((handle_deal_amount dbC5 9 "@s" "web" 20 10000 1).1 = none →
      (handle_deal_amount dbC5 9 "@s" "web" 20 10000 1).2 = dbC5)) :=
  ⟨by simp [dbC5, lookupA],
    C5_deal_persisted_iff_debit_succeeds dbC5 9 "@s" "web" 20 10000 1 uC5
      (by simp [dbC5, lookupA])⟩

/-- C6, evaluated at the failing input: `update_balance` for the
non-existent user 9 with the negative delta `-5` reports success and
creates the account with the negative initial balance `-5`; the claimed
behaviour is failure with no account created. -/
theorem C6_negative_delta_creates_negative_account :
    (update_balance dbC6 9 (-5) 3).1 = true ∧
    (lookupA (update_balance dbC6 9 (-5) 3).2.users 9).map User.balance = some (-5) := by
  constructor <;> simp [update_balance, dbC6, lookupA]

/-- C7: for a `pending` withdrawal of amount `A` owned by an existing user,
`approve_withdrawal` succeeds, marks it `approved` and leaves every balance
untouched, while `reject_withdrawal` succeeds, marks it `rejected` and
raises the owner's balance by exactly `A`; for a request in any other
status both calls fail and leave the database unchanged. -/
theorem C7_withdrawal_approve_reject
    (db : DB) (wid : Nat) (w : Withdrawal) (notes : Option String) (now : Nat)
    (u : User)
    (hw : lookupA db.withdrawals wid = some w)
    (hu : lookupA db.users w.user_id = some u)
    (hub : 0 ≤ u.balance) (ha : 0 ≤ w.amount) :
    (w.status = "pending" →
      (approve_withdrawal db wid notes now).1 = true ∧
      (lookupA (approve_withdrawal db wid notes now).2.withdrawals wid).map
          Withdrawal.status = some "approved" ∧
      (approve_withdrawal db wid notes now).2.users = db.users ∧
      (reject_withdrawal db wid notes now).1 = true ∧
      (lookupA (reject_withdrawal db wid notes now).2.withdrawals wid).map
          Withdrawal.status = some "rejected" ∧
      (lookupA (reject_withdrawal db wid notes now).2.users w.user_id).map
          User.balance = some (u.balance + w.amount)) ∧
    (w.status ≠ "pending" →
      approve_withdrawal db wid notes now = (false, db) ∧
      reject_withdrawal db wid notes now = (false, db)) := by
  have hnn : ¬ (u.balance + w.amount < 0) := by
    rw [not_lt]
    linarith
  constructor
  · intro hpend
    have hw2 : lookupA (setA db.withdrawals wid { w with status := "approved", admin_notes := notes, timestamp := now }) wid = some { w with status := "approved", admin_notes := notes, timestamp := now } :=
      lookupA_setA_self db.withdrawals wid _ w hw
    have hub2 : update_balance db w.user_id w.amount now = (true, { db with users := setA db.users w.user_id { balance := u.balance + w.amount, updated_at := now } }) := by
      rw [update_balance_existing db w.user_id w.amount now u hu, if_neg hnn]
    have hw3 : lookupA (setA db.withdrawals wid { w with status := "rejected", admin_notes := notes, timestamp := now }) wid = some { w with status := "rejected", admin_notes := notes, timestamp := now } :=
      lookupA_setA_self db.withdrawals wid _ w hw
    refine ⟨?_, ?_, ?_, ?_, ?_, ?_⟩
    · simp [approve_withdrawal, hw, hpend]
    · simp [approve_withdrawal, hw, hpend, hw2]
    · simp [approve_withdrawal, hw, hpend]
    · simp [reject_withdrawal, hw, hpend, hub2]
    · simp [reject_withdrawal, hw, hpend, hub2, hw3]
    · have hs : (reject_withdrawal db wid notes now).2.users = setA db.users w.user_id { balance := u.balance + w.amount, updated_at := now } := by
        simp [reject_withdrawal, hw, hpend, hub2]
      rw [hs, lookupA_setA_self db.users w.user_id _ u hu]
      simp
  · intro hnp
    constructor
    · simp [approve_withdrawal, hw, hnp]
    · simp [reject_withdrawal, hw, hnp]

/-- Witness for C7: withdrawal 2 of amount 25 owned by user 5 (balance 40). -/
theorem C7_witness :
    (lookupA dbC7.withdrawals 2 = some wC7 ∧ lookupA dbC7.users wC7.user_id = some uC7 ∧
      (0 : ℚ) ≤ uC7.balance ∧ (0 : ℚ) ≤ wC7.amount) ∧
    ((wC7.status = "pending" →
      (approve_withdrawal dbC7 2 (some "ok") 6).1 = true ∧
      (lookupA (approve_withdrawal dbC7 2 (some "ok") 6).2.withdrawals 2).map
          Withdrawal.status = some "approved" ∧
      (approve_withdrawal dbC7 2 (some "ok") 6).2.users = dbC7.users ∧
      (reject_withdrawal dbC7 2 (some "ok") 6).1 = true ∧
      (lookupA (reject_withdrawal dbC7 2 (some "ok") 6).2.withdrawals 2).map
          Withdrawal.status = some "rejected" ∧
      (lookupA (reject_withdrawal dbC7 2 (some "ok") 6).2.users wC7.user_id).map
          User.balance = some (uC7.balance + wC7.amount)) ∧
    (wC7.status ≠ "pending" →
      approve_withdrawal dbC7 2 (some "ok") 6 = (false, dbC7) ∧
      reject_withdrawal dbC7 2 (some "ok") 6 = (false, dbC7))) :=
  ⟨⟨by simp [dbC7, lookupA], by simp [dbC7, wC7, lookupA], by norm_num [uC7],
      by norm_num [wC7]⟩,
    C7_withdrawal_approve_reject dbC7 2 wC7 (some "ok") 6 uC7
      (by simp [dbC7, lookupA]) (by simp [dbC7, wC7, lookupA]) (by norm_num [uC7])
      (by norm_num [wC7])⟩

/-- C8: a stored payment still in status `pending` whose creation time lies
strictly more than 24 hours before the poll time is transitioned to
`expired` by the poller's per-payment check — for every possible outcome of
the remote processor call, which is therefore neither attempted nor
required to succeed — and no user balance is touched. -/
theorem C8_stale_pending_payment_expires
    (db : DB) (pid : String) (p : Payment) (now : Nat) (remote : Option String)
    (hpid : pid ≠ "") (hp : lookupA db.payments pid = some p)
    (hst : p.status = "pending") (hold : p.created_at + 86400 < now) :
    check_single_payment db pid p now remote
      = { db with payments := setA db.payments pid { p with status := "expired", updated_at := now } } ∧
    (check_single_payment db pid p now remote).users = db.users ∧
    (lookupA (check_single_payment db pid p now remote).payments pid).map Payment.status
      = some "expired" := by
  have hne : p.status ≠ "expired" := by rw [hst]; simp
  have hups : update_payment_status db pid "expired" now = (true, { db with payments := setA db.payments pid { p with status := "expired", updated_at := now } }) := by
    simp [update_payment_status, hpid, validStatuses, hp, hne]
  have h0 : check_single_payment db pid p now remote = { db with payments := setA db.payments pid { p with status := "expired", updated_at := now } } := by
    simp [check_single_payment, hpid, hold, hups]
  refine ⟨h0, by rw [h0], ?_⟩
  rw [h0]
  have h2 : lookupA (setA db.payments pid { p with status := "expired", updated_at := now }) pid = some { p with status := "expired", updated_at := now } :=
    lookupA_setA_self db.payments pid _ p hp
  show (lookupA (setA db.payments pid { p with status := "expired", updated_at := now }) pid).map Payment.status = some "expired"
  rw [h2]
  simp

/-- Witness for C8: payment `pay8` created at second 1000 is checked at
second 90000 (25 hours later), with a remote answer `confirmed` available —
which is ignored. -/
theorem C8_witness :
    (("pay8" : String) ≠ "" ∧ lookupA dbC8.payments "pay8" = some pC8 ∧
      pC8.status = "pending" ∧ pC8.created_at + 86400 < 90000) ∧
    (check_single_payment dbC8 "pay8" pC8 90000 (some "confirmed")
      = { dbC8 with payments := setA dbC8.payments "pay8" { pC8 with status := "expired", updated_at := 90000 } } ∧
    (check_single_payment dbC8 "pay8" pC8 90000 (some "confirmed")).users = dbC8.users ∧
    (lookupA (check_single_payment dbC8 "pay8" pC8 90000 (some "confirmed")).payments
        "pay8").map Payment.status = some "expired") :=
  ⟨⟨by simp, by simp [dbC8, lookupA], rfl, by norm_num [pC8]⟩,
    C8_stale_pending_payment_expires dbC8 "pay8" pC8 90000 (some "confirmed")
      (by simp) (by simp [dbC8, lookupA]) rfl (by norm_num [pC8])⟩

/-- C9 counterexample: payment `pay9` is stored in the non-terminal status
`confirming`, yet the set fetched by a poller cycle is empty — `confirming`
payments are not queried against the processor. -/
theorem C9_counterexample :
    ("pay9", pC9) ∈ dbC9.payments ∧ pC9.status = "confirming" ∧
    pC9.status ∉ ["confirmed", "failed", "cancelled", "expired"] ∧
    get_pending_payments dbC9 = [] := by
  refine ⟨by simp [dbC9], rfl, by simp [pC9], ?_⟩
  simp [get_pending_payments, dbC9, pC9]

/-- C9 (amended): a poller cycle fetches exactly the payments whose stored
status is `pending` — a payment in any other status, `confirming` included,
is not in the set queried against the processor. -/
theorem C9_poller_fetches_exactly_pending (db : DB) (pid : String) (p : Payment) :
    (pid, p) ∈ get_pending_payments db ↔ (pid, p) ∈ db.payments ∧ p.status = "pending" := by
  simp [get_pending_payments, List.mem_filter]

/-- Witness for the amended C9 at a concrete one-payment database. -/
theorem C9_witness :
    ("pay9w", pC9w) ∈ get_pending_payments dbC9w
      ↔ ("pay9w", pC9w) ∈ dbC9w.payments ∧ pC9w.status = "pending" :=
  C9_poller_fetches_exactly_pending dbC9w "pay9w" pC9w

theorem mem_setA {κ α : Type} [DecidableEq κ] (l : List (κ × α)) (k : κ) (v : α)
    (e : κ × α) (h : e ∈ setA l k v) : e ∈ l ∨ e.2 = v := by
  induction l with
  | nil => simp [setA] at h
  | cons a t ih =>
      obtain ⟨k0, v0⟩ := a
      by_cases hk : k = k0
      · simp only [setA, if_pos hk] at h
        rcases List.mem_cons.mp h with h1 | h1
        · right
          rw [h1]
        · left
          exact List.mem_cons_of_mem _ h1
      · simp only [setA, if_neg hk] at h
        rcases List.mem_cons.mp h with h1 | h1
        · left
          rw [h1]
          exact List.mem_cons_self _ _
        · rcases ih h1 with h2 | h2
          · left
            exact List.mem_cons_of_mem _ h2
          · right
            exact h2

theorem add_payment_payments (db : DB) (uid : Nat) (pid : String) (amount : ℚ)
    (cur url : String) (now : Nat) :
    (add_payment db uid pid amount cur url now).2.payments = db.payments ∨
    (add_payment db uid pid amount cur url now).2.payments
      = (pid, { user_id := uid, amount := amount, currency := cur, status := "pending",
                invoice_url := url, created_at := now, updated_at := now }) :: db.payments := by
  unfold add_payment
  split
  · exact Or.inl rfl
  split
  · exact Or.inl rfl
  split
  · exact Or.inl rfl
  split
  · exact Or.inl rfl
  cases hm : lookupA db.payments pid with
  | some q => simp [hm]
  | none => simp [hm]

theorem update_payment_status_payments (db : DB) (pid st : String) (now : Nat) :
    (update_payment_status db pid st now).2.payments = db.payments ∨
    (st ∈ validStatuses ∧ ∃ p : Payment, lookupA db.payments pid = some p ∧
      (update_payment_status db pid st now).2.payments
        = setA db.payments pid { p with status := st, updated_at := now }) := by
  unfold update_payment_status
  split
  · exact Or.inl rfl
  split
  · exact Or.inl rfl
  by_cases hmem : st ∈ validStatuses
  · rw [if_pos hmem]
    cases hm : lookupA db.payments pid with
    | none => simp
    | some p =>
        by_cases hsame : p.status = st
        · simp [hsame]
        · simp only [hsame, if_neg hsame]
          exact Or.inr ⟨hmem, p, rfl, rfl⟩
  · rw [if_neg hmem]
    exact Or.inl rfl

/-- C10 counterexample: the admin cleanup rewrites the status of an old
`confirmed` payment to `archived`, a value outside the claimed six-value
set — so "every stored payment's status is always one of the six values"
fails on the reachable post-cleanup state. -/
theorem C10_counterexample :
    (lookupA (cleanup_old_data dbC10 2600000).2.payments "pay10").map Payment.status
      = some "archived" ∧
    "archived" ∉ validStatuses := by
  constructor
  · simp [cleanup_old_data, dbC10, pC10, lookupA]
  · simp [validStatuses]

/-- C10 (amended): `add_payment` only ever inserts rows with status
`pending`, `update_payment_status` called with a status outside the
six-value set returns `false` without mutating anything, and both
operations preserve the six-value invariant over all stored payments; the
admin cleanup, however, moves old `confirmed`/`failed` payments to the
out-of-set status `archived` (see the counterexample). -/
theorem C10_payment_status_discipline
    (db : DB) (uid : Nat) (pid pid2 st : String) (amount : ℚ)
    (cur url : String) (now : Nat) :
    (∀ e : String × Payment, e ∈ (add_payment db uid pid amount cur url now).2.payments →
      e ∈ db.payments ∨ e.2.status = "pending") ∧
    (st ∉ validStatuses → update_payment_status db pid2 st now = (false, db)) ∧
    ((∀ e ∈ db.payments, e.2.status ∈ validStatuses) →
      (∀ e ∈ (add_payment db uid pid amount cur url now).2.payments,
        e.2.status ∈ validStatuses) ∧
      (∀ e ∈ (update_payment_status db pid2 st now).2.payments,
        e.2.status ∈ validStatuses)) := by
  refine ⟨?_, ?_, ?_⟩
  · intro e he
    rcases add_payment_payments db uid pid amount cur url now with h | h
    · rw [h] at he
      exact Or.inl he
    · rw [h] at he
      rcases List.mem_cons.mp he with h1 | h1
      · right
        rw [h1]
      · exact Or.inl h1
  · intro hnot
    unfold update_payment_status
    by_cases h1 : pid2 = ""
    · rw [if_pos h1]
    · rw [if_neg h1]
      by_cases h2 : st = ""
      · rw [if_pos h2]
      · rw [if_neg h2, if_neg hnot]
  · intro hall
    constructor
    · intro e he
      rcases add_payment_payments db uid pid amount cur url now with h | h
      · rw [h] at he
        exact hall e he
      · rw [h] at he
        rcases List.mem_cons.mp he with h1 | h1
        · rw [h1]
          simp [validStatuses]
        · exact hall e h1
    · intro e he
      rcases update_payment_status_payments db pid2 st now with h | ⟨hmem, p, _, h⟩
      · rw [h] at he
        exact hall e he
      · rw [h] at he
        rcases mem_setA db.payments pid2 _ e he with h1 | h1
        · exact hall e h1
        · rw [h1]
          exact hmem

/-- Witness for the amended C10 at a concrete database and the out-of-set
status string `"weird"`. -/
theorem C10_witness :
    ("weird" ∉ validStatuses) ∧
    ((∀ e : String × Payment,
        e ∈ (add_payment dbC10w 5 "newpay" 12 "btc" "https://u" 7).2.payments →
        e ∈ dbC10w.payments ∨ e.2.status = "pending") ∧
      ("weird" ∉ validStatuses →
        update_payment_status dbC10w "pay10w" "weird" 7 = (false, dbC10w)) ∧
      ((∀ e ∈ dbC10w.payments, e.2.status ∈ validStatuses) →
        (∀ e ∈ (add_payment dbC10w 5 "newpay" 12 "btc" "https://u" 7).2.payments,
          e.2.status ∈ validStatuses) ∧
        (∀ e ∈ (update_payment_status dbC10w "pay10w" "weird" 7).2.payments,
          e.2.status ∈ validStatuses))) :=
  ⟨by simp [validStatuses],
    C10_payment_status_discipline dbC10w 5 "newpay" "pay10w" "weird" 12 "btc" "https://u" 7⟩

end EscrowBot
